import Mathlib

/-!
Verification of the automated UI exploration engine (`ui_explorer.py`).

The development shallowly embeds the explorer: pure helper functions are
translated directly; the stateful recursive traversal (`explore_screen`)
is translated as a state-passing function over an abstract Action Driver
environment (`Env`), with the driver's world threaded explicitly.  The
recursion is made structural on an explicit fuel argument; the top-level
entry point supplies fuel `maxDepth + 1`, under which the fuel-exhaustion
branch coincides with the source's `depth > max_depth` guard.
-/

namespace UIExplorer

/-- The whitespace set stripped by Python's `str.strip()` (ASCII part). -/
def isPySpace (c : Char) : Bool :=
  c = ' ' || c = '\t' || c = '\n' || c = '\r' || c = '\x0b' || c = '\x0c'

/-- Python `s.strip()`: drop leading and trailing whitespace. -/
def pyStrip (s : String) : String :=
  ⟨((s.data.dropWhile isPySpace).reverse.dropWhile isPySpace).reverse⟩

/-- Python `s.replace(c, r)` for single-character pattern and replacement
(used as `identifier.replace(':', '_')`). -/
def replaceChar (c r : Char) (s : String) : String :=
  ⟨s.data.map (fun x => if x = c then r else x)⟩

/-- Python `s[:n]` slicing on a string (by code point). -/
def pyTake (n : Nat) (s : String) : String :=
  ⟨s.data.take n⟩

/-- One candidate interactable element, as built by
`find_clickable_elements` (`element_info` dict): keys `text`,
`accessibilityText`, `resource-id`, `bounds`, `class`, `path`.
The derived `identifier` key is not stored; it is always
`createIdentifier` of the element. -/
structure Element where
  text : String
  accessibilityText : String
  resourceId : String
  bounds : String
  nodeClass : String
  path : String
deriving DecidableEq, Repr

/-- Embedding of `UIExplorer._create_identifier` (ui_explorer.py lines 99-113):
strips `text`, `accessibilityText`, `resource-id`; falls through
text → acc → id → bounds, with `bounds` taken unstripped. -/
def createIdentifier (e : Element) : String :=
  let text := pyStrip e.text
  let accText := pyStrip e.accessibilityText
  let resId := pyStrip e.resourceId
  let bounds := e.bounds
  if text ≠ "" then "text:" ++ text
  else if accText ≠ "" then "acc:" ++ accText
  else if resId ≠ "" then "id:" ++ resId
  else "bounds:" ++ bounds

/-- The locator command built by `UIExplorer.tap_element`
(ui_explorer.py lines 134-150): raw (unstripped) truthiness checks on
`text`, then `accessibilityText`, then `resource-id`, then a screen
position tap if `bounds` is non-empty; `none` when every field is empty
(in which case the backend is never invoked and the tap reports failure). -/
def buildTapCmd (e : Element) : Option String :=
  if e.text ≠ "" then some ("- tapOn: \"" ++ e.text ++ "\"")
  else if e.accessibilityText ≠ "" then some ("- tapOn: \"" ++ e.accessibilityText ++ "\"")
  else if e.resourceId ≠ "" then some ("- tapOn:\n    id: " ++ e.resourceId)
  else if e.bounds ≠ "" then some "- tapOn:\n    point: \"50%,50%\""
  else none

/-- A decoded UI-hierarchy snapshot, as traversed by
`find_clickable_elements` (ui_explorer.py lines 57-97): a node is either a
dict (with an `attributes` map of string attributes and a `children`
list, either possibly absent, modelled as empty), a list of nodes, or any
other JSON scalar (which the traversal ignores). -/
inductive Node where
  | dict (attrs : List (String × String)) (children : List Node) : Node
  | list (items : List Node) : Node
  | scalar : Node

/-- Python `attrs.get(k, '')` on the attribute map. -/
def attrGet (attrs : List (String × String)) (k : String) : String :=
  ((attrs.lookup k).getD "")

/-- The `element_info` dict built for a clickable node
(ui_explorer.py lines 71-78). -/
def mkElem (attrs : List (String × String)) (path : String) : Element :=
  { text := attrGet attrs "text"
    accessibilityText := attrGet attrs "accessibilityText"
    resourceId := attrGet attrs "resource-id"
    bounds := attrGet attrs "bounds"
    nodeClass := attrGet attrs "class"
    path := path }

mutual
/-- The inner `traverse` of `find_clickable_elements`
(ui_explorer.py lines 64-94): pre-order traversal; a dict node whose
`clickable` attribute is the string `"true"` contributes its element,
unless its identifier is already in `visited_elements` (line 84); then
the children / list items are traversed with extended paths. -/
def travNode (visited : List String) (path : String) : Node → List Element
  | .dict attrs children =>
      let e := mkElem attrs path
      (if (attrs.lookup "clickable" == some "true")
          && !(visited.contains (createIdentifier e))
       then [e] else []) ++ travKids visited path "child" 0 children
  | .list items => travKids visited path "item" 0 items
  | .scalar => []

/-- Traversal of a `children` (tag `"child"`) or list (tag `"item"`)
collection, with the enumeration index `i`. -/
def travKids (visited : List String) (path tag : String) (i : Nat) :
    List Node → List Element
  | [] => []
  | c :: cs =>
      travNode visited (path ++ "/" ++ tag ++ "[" ++ toString i ++ "]") c
        ++ travKids visited path tag (i + 1) cs
end

/-- Embedding of `UIExplorer.find_clickable_elements(hierarchy)`: the traversal is
started at the root with the empty path. -/
def findClickableElements (visited : List String) (hierarchy : Node) : List Element :=
  travNode visited "" hierarchy

/-- One recorded screen observation (the `screen_state` dict of
ui_explorer.py lines 236-241).  The `snapshot` and `frontierAtCapture`
fields are ghost fields recorded for specification purposes only: they
hold the captured hierarchy and the visited set at capture time, which
the Python dict does not store. -/
structure ScreenState where
  depth : Nat
  timestamp : Nat
  screenshot : String
  elements : List Element
  snapshot : Node
  frontierAtCapture : List String

/-- One recorded transition (the `flow_record` dict of
ui_explorer.py lines 267-273). -/
structure FlowRecord where
  fromScreen : String
  action : String
  toScreen : String
  depth : Nat
  element : Element
deriving DecidableEq, Repr

/-- Instrumentation: the sequence of Action Driver calls a run performs,
in order.  `hier` is a `maestro hierarchy` capture (with its outcome),
`shot` a screenshot, `attempt` marks the element loop reaching the tap
for an identifier, `backendTap` an actual `maestro test` tap invocation
(with its outcome), and `back` a back-navigation attempt. -/
inductive Ev where
  | hier (ok : Bool)
  | shot (name : String)
  | attempt (id : String)
  | backendTap (ok : Bool)
  | back
deriving DecidableEq, Repr

/-- The Action Driver environment: an abstract world state `σ` threaded
through every backend call (subprocess invocations and the clock). -/
structure Env (σ : Type) where
  getHierarchy : σ → Option Node × σ
  takeShot : String → σ → σ
  runTap : String → σ → Bool × σ
  goBack : σ → σ
  sleep : Nat → σ → σ
  now : σ → Nat

/-- The explorer's mutable state: the driver world plus
`visited_elements` (insertion-ordered), `screen_states`,
`discovered_flows`, and the instrumentation trace. -/
structure ExpSt (σ : Type) where
  world : σ
  visited : List String
  screenStates : List ScreenState
  flows : List FlowRecord
  trace : List Ev

/-- Embedding of `UIExplorer.tap_element` (ui_explorer.py lines 132-183): build the
locator command; when none can be built, report failure without invoking
the backend; otherwise run the backend tap flow and report its outcome. -/
def tapElement {σ : Type} (E : Env σ) (e : Element) (w : σ) :
    Bool × σ × List Ev :=
  match buildTapCmd e with
  | none => (false, w, [])
  | some cmd =>
    let r := E.runTap cmd w
    (r.1, r.2, [Ev.backendTap r.1])

/-- The per-screen element loop of `UIExplorer.explore_screen`
(ui_explorer.py lines 245-283).  `rec` is the recursive exploration of
the next depth, applied only under the `depth < max_depth` guard. -/
def exploreLoop {σ : Type} (E : Env σ) (maxDepth depth : Nat)
    (screenshotName : String) (rec : ExpSt σ → ExpSt σ) :
    List Element → ExpSt σ → ExpSt σ
  | [], st => st
  | e :: rest, st =>
    let id := createIdentifier e
    if st.visited.contains id then
      exploreLoop E maxDepth depth screenshotName rec rest st
    else
      let st₁ : ExpSt σ :=
        { st with visited := st.visited ++ [id],
                  trace := st.trace ++ [Ev.attempt id] }
      let tp := tapElement E e st₁.world
      let st₂ : ExpSt σ := { st₁ with world := tp.2.1, trace := st₁.trace ++ tp.2.2 }
      if tp.1 then
        let w₃ := E.sleep 2 st₂.world
        let afterName :=
          "after_tap_" ++ pyTake 30 (replaceChar ':' '_' id) ++ "_"
            ++ toString (E.now w₃)
        let w₄ := E.takeShot afterName w₃
        let fr : FlowRecord :=
          { fromScreen := screenshotName, action := id, toScreen := afterName,
            depth := depth, element := e }
        let st₃ : ExpSt σ :=
          { st₂ with world := w₄, trace := st₂.trace ++ [Ev.shot afterName],
                     flows := st₂.flows ++ [fr] }
        let st₄ := if depth < maxDepth then rec st₃ else st₃
        let st₅ : ExpSt σ :=
          { st₄ with world := E.sleep 1 (E.goBack st₄.world),
                     trace := st₄.trace ++ [Ev.back] }
        exploreLoop E maxDepth depth screenshotName rec rest st₅
      else
        exploreLoop E maxDepth depth screenshotName rec rest st₂

/-- Embedding of `UIExplorer.explore_screen` (ui_explorer.py lines 214-283).  The
source recursion is on `depth` bounded by `max_depth`; here `fuel` makes
it structural.  The entry point supplies `fuel = maxDepth + 1 - depth`,
under which `fuel = 0` holds exactly when `depth > maxDepth`, so the
fuel-exhaustion branch duplicates the source's `depth > max_depth`
guard (which is also kept literally). -/
def exploreScreen {σ : Type} (E : Env σ) (maxDepth : Nat) :
    Nat → Nat → ExpSt σ → ExpSt σ
  | fuel, depth, st =>
    if depth > maxDepth then st
    else
      match fuel with
      | 0 => st
      | fuel' + 1 =>
        let hr := E.getHierarchy st.world
        match hr.1 with
        | none => { st with world := hr.2, trace := st.trace ++ [Ev.hier false] }
        | some hierarchy =>
          let st₁ : ExpSt σ := { st with world := hr.2, trace := st.trace ++ [Ev.hier true] }
          let screenshotName :=
            "screen_depth" ++ toString depth ++ "_" ++ toString (E.now st₁.world)
          let w₂ := E.takeShot screenshotName st₁.world
          let clickable := findClickableElements st₁.visited hierarchy
          let ss : ScreenState :=
            { depth := depth, timestamp := E.now w₂, screenshot := screenshotName,
              elements := clickable, snapshot := hierarchy,
              frontierAtCapture := st₁.visited }
          let st₂ : ExpSt σ :=
            { st₁ with world := w₂, trace := st₁.trace ++ [Ev.shot screenshotName],
                       screenStates := st₁.screenStates ++ [ss] }
          exploreLoop E maxDepth depth screenshotName
            (exploreScreen E maxDepth fuel' (depth + 1)) clickable st₂

/-- The fresh per-run state built in `UIExplorer.__init__`. -/
def initSt {σ : Type} (w : σ) : ExpSt σ :=
  { world := w, visited := [], screenStates := [], flows := [], trace := [] }

/-- Embedding of `UIExplorer.run_exploration(max_depth)`: the top-level call
`explore_screen(depth=0, max_depth=max_depth)` on a fresh state. -/
def runExploration {σ : Type} (E : Env σ) (w : σ) (maxDepth : Nat) : ExpSt σ :=
  exploreScreen E maxDepth (maxDepth + 1) 0 (initSt w)

/-- Fixed prefix of the generated script up to the generation
timestamp (ui_explorer.py lines 298-301). -/
def scriptPre (appId : String) : String :=
  "appId: " ++ appId ++ "\n---\n# Auto-generated UI Exploration Tests\n# Generated: "

/-- Counts and bootstrap steps of the generated script header
(ui_explorer.py lines 302-308). -/
def scriptCounts (states : List ScreenState) (flows : List FlowRecord) : String :=
  "\n# Total screens explored: " ++ toString states.length
    ++ "\n# Total interactions discovered: " ++ toString flows.length
    ++ "\n\n- waitForAnimationToEnd\n- takeScreenshot: \"exploration_start\"\n\n"

/-- One step of `flows_by_screen[flow.from_screen].append(flow)` on an
insertion-ordered `defaultdict(list)` (ui_explorer.py lines 292-295). -/
def addFlow : List (String × List FlowRecord) → FlowRecord →
    List (String × List FlowRecord)
  | [], fr => [(fr.fromScreen, [fr])]
  | (k, g) :: rest, fr =>
      if k = fr.fromScreen then (k, g ++ [fr]) :: rest
      else (k, g) :: addFlow rest fr

/-- Grouping of the flow log by `from_screen`, keys in first-occurrence
order, each group in recorded order. -/
def groupFlows (flows : List FlowRecord) : List (String × List FlowRecord) :=
  flows.foldl addFlow []

/-- The activation step emitted per flow record
(ui_explorer.py lines 322-327): `text` / `accessibilityText` /
`resource-id` branches only; an element with none of the three yields no
activation step at all (there is no `else` branch in the source). -/
def scriptActivationText (e : Element) : String :=
  if e.text ≠ "" then ("- tapOn: \"" ++ e.text ++ "\"") ++ "\n"
  else if e.accessibilityText ≠ "" then ("- tapOn: \"" ++ e.accessibilityText ++ "\"") ++ "\n"
  else if e.resourceId ≠ "" then ("- tapOn:\n    id: " ++ e.resourceId) ++ "\n"
  else ""

/-- The settle / screenshot / back / settle steps emitted per flow
record (ui_explorer.py lines 329-332). -/
def flowTailText (toScreen : String) : String :=
  "- waitForAnimationToEnd\n- takeScreenshot: \"" ++ toScreen
    ++ "\"\n- back\n- waitForAnimationToEnd\n\n"

/-- Everything emitted for one flow record
(ui_explorer.py lines 320-332). -/
def flowEntryText (fr : FlowRecord) : String :=
  "# Test: " ++ fr.action ++ "\n" ++ scriptActivationText fr.element
    ++ flowTailText fr.toScreen

/-- The comment-delimited section emitted for one origin-screen group
(ui_explorer.py lines 310-332). -/
def sectionText (g : String × List FlowRecord) : String :=
  "\n# Screen: " ++ g.1 ++ "\n# Discovered " ++ toString g.2.length
    ++ " interactions\n\n" ++ String.join (g.2.map flowEntryText)

/-- The generated script content after the timestamp. -/
def scriptRest (states : List ScreenState) (flows : List FlowRecord) : String :=
  scriptCounts states flows ++ String.join ((groupFlows flows).map sectionText)

/-- The full generated script content (`test_content` of
`UIExplorer.generate_test_files`), as a function of the app id, the
clock reading `t` rendered into the header, and the logs. -/
def genTestContent (appId t : String) (states : List ScreenState)
    (flows : List FlowRecord) : String :=
  scriptPre appId ++ t ++ scriptRest states flows

/-- The structured exploration report (the `report` dict of
ui_explorer.py lines 342-349); `visitedElements` is `list(visited)` in
insertion order. -/
structure Report where
  timestamp : String
  totalScreens : Nat
  totalInteractions : Nat
  visitedElements : List String
  flows : List FlowRecord
  screenshotsDir : String
deriving DecidableEq, Repr

/-- Construction of the report from the run's logs, as a function of
the clock reading `t`. -/
def genReport (t : String) (states : List ScreenState) (flows : List FlowRecord)
    (visited : List String) (dir : String) : Report :=
  { timestamp := t, totalScreens := states.length,
    totalInteractions := flows.length, visitedElements := visited,
    flows := flows, screenshotsDir := dir }

/-- Number of back-navigation attempts in a trace. -/
def countBack (tr : List Ev) : Nat :=
  tr.countP (fun e => e = Ev.back)

/-- Number of successful backend tap invocations in a trace. -/
def countSucc (tr : List Ev) : Nat :=
  tr.countP (fun e => e = Ev.backendTap true)

/-- The identifiers of elements whose tap was actually attempted, in
order. -/
def attemptIds : List Ev → List String :=
  List.filterMap (fun e => match e with | Ev.attempt i => some i | _ => none)

/-- Stated from the spec's words for claim C2: "returns `"text:" +
displayText` when displayText is non-empty after stripping; otherwise
`"acc:" + accessibilityLabel` when that is non-empty after stripping;
otherwise `"id:" + resourceId` ...; otherwise `"bounds:" + bounds`" —
the appended value is the field itself, stripping appearing only in the
emptiness test. -/
def identifySpecClaim (e : Element) : String :=
  if pyStrip e.text ≠ "" then "text:" ++ e.text
  else if pyStrip e.accessibilityText ≠ "" then "acc:" ++ e.accessibilityText
  else if pyStrip e.resourceId ≠ "" then "id:" ++ e.resourceId
  else "bounds:" ++ e.bounds

/-- The amended identity specification: the *stripped* label value is
appended in the first three branches; the bounds fallback appends the
raw bounds string. -/
def identifyAmended (e : Element) : String :=
  if pyStrip e.text ≠ "" then "text:" ++ pyStrip e.text
  else if pyStrip e.accessibilityText ≠ "" then "acc:" ++ pyStrip e.accessibilityText
  else if pyStrip e.resourceId ≠ "" then "id:" ++ pyStrip e.resourceId
  else "bounds:" ++ e.bounds

mutual
/-- Stated from the spec's words for claim C8: all interactable elements
of a snapshot — every node whose `clickable` attribute is textually
`"true"` — in pre-order first-encounter order, with no further
filtering. -/
def specClickableNode (path : String) : Node → List Element
  | .dict attrs children =>
      (if attrs.lookup "clickable" == some "true" then [mkElem attrs path] else [])
        ++ specClickableKids path "child" 0 children
  | .list items => specClickableKids path "item" 0 items
  | .scalar => []

/-- Children / list-items part of `specClickableNode`. -/
def specClickableKids (path tag : String) (i : Nat) : List Node → List Element
  | [] => []
  | c :: cs =>
      specClickableNode (path ++ "/" ++ tag ++ "[" ++ toString i ++ "]") c
        ++ specClickableKids path tag (i + 1) cs
end

/-- Stated from the spec's words for claim C7: the activation step of
the generated script chooses its locator by the same four-way priority
as live activation — textual label, accessibility label, stable
identifier, then the last-resort approximate screen-position tap. -/
def claimedActivationText (e : Element) : String :=
  if e.text ≠ "" then ("- tapOn: \"" ++ e.text ++ "\"") ++ "\n"
  else if e.accessibilityText ≠ "" then ("- tapOn: \"" ++ e.accessibilityText ++ "\"") ++ "\n"
  else if e.resourceId ≠ "" then ("- tapOn:\n    id: " ++ e.resourceId) ++ "\n"
  else if e.bounds ≠ "" then ("- tapOn:\n    point: \"50%,50%\"") ++ "\n"
  else ""

/-- Per-record script text as claim C7 describes it: comment, activation
step with the four-way locator priority, then settle / screenshot /
back-and-settle steps. -/
def claimedEntryText (fr : FlowRecord) : String :=
  "# Test: " ++ fr.action ++ "\n" ++ claimedActivationText fr.element
    ++ flowTailText fr.toScreen

/-- The traversal's visited-filter, factored out: `find_clickable_elements`
keeps exactly the clickable elements whose identity is not yet visited,
in pre-order. -/
theorem travNode_eq_filter (visited : List String) :
    ∀ (path : String) (n : Node),
      travNode visited path n
        = (specClickableNode path n).filter
            (fun e => !(visited.contains (createIdentifier e))) := by
  apply travNode.induct visited
    (fun path n =>
      travNode visited path n
        = (specClickableNode path n).filter
            (fun e => !(visited.contains (createIdentifier e))))
    (fun path tag i cs =>
      travKids visited path tag i cs
        = (specClickableKids path tag i cs).filter
            (fun e => !(visited.contains (createIdentifier e))))
  · intro path attrs children ih
    simp only [travNode, specClickableNode, List.filter_append, ih]
    by_cases hc : attrs.lookup "clickable" == some "true"
    · by_cases hv : createIdentifier (mkElem attrs path) ∈ visited
      · simp [hc, hv]
      · simp [hc, hv]
    · simp [hc]
  · intro path items ih
    simpa [travNode, specClickableNode] using ih
  · intro path
    simp [travNode, specClickableNode]
  · intro path tag i
    simp [travKids, specClickableKids]
  · intro path tag i c cs ih1 ih2
    simp [travKids, specClickableKids, List.filter_append, ih1, ih2]

theorem countBack_append (a b : List Ev) :
    countBack (a ++ b) = countBack a + countBack b :=
  List.countP_append _ a b

theorem countSucc_append (a b : List Ev) :
    countSucc (a ++ b) = countSucc a + countSucc b :=
  List.countP_append _ a b

theorem countBack_take_le (tr : List Ev) (n : Nat) :
    countBack (tr.take n) ≤ countBack tr :=
  (List.take_sublist n tr).countP_le _

theorem countSucc_take_le (tr : List Ev) (n : Nat) :
    countSucc (tr.take n) ≤ countSucc tr :=
  (List.take_sublist n tr).countP_le _

theorem attemptIds_append (a b : List Ev) :
    attemptIds (a ++ b) = attemptIds a ++ attemptIds b :=
  List.filterMap_append a b _

/-- A well-formed trace segment: back-navigation attempts and successful
backend taps balance out, and in every prefix the backs never outnumber
the successful taps (each back follows its success). -/
def SegOk (nt : List Ev) : Prop :=
  countBack nt = countSucc nt ∧ ∀ n, countBack (nt.take n) ≤ countSucc (nt.take n)

theorem segOk_nil : SegOk ([] : List Ev) :=
  ⟨rfl, fun n => by simp [countBack, countSucc]⟩

theorem segOk_of_counts (nt : List Ev) (hb : countBack nt = 0) (hs : countSucc nt = 0) :
    SegOk nt := by
  refine ⟨by omega, fun n => ?_⟩
  have := countBack_take_le nt n
  omega

theorem segOk_append {a b : List Ev} (ha : SegOk a) (hb : SegOk b) : SegOk (a ++ b) := by
  constructor
  · rw [countBack_append, countSucc_append, ha.1, hb.1]
  · intro n
    rw [List.take_append_eq_append_take, countBack_append, countSucc_append]
    have h1 := ha.2 n
    have h2 := hb.2 (n - a.length)
    omega

theorem segOk_wrap {mid : List Ev} (h : SegOk mid) :
    SegOk (Ev.backendTap true :: (mid ++ [Ev.back])) := by
  constructor
  · have h1 := countBack_append mid [Ev.back]
    have h2 := countSucc_append mid [Ev.back]
    have hc1 : countBack (Ev.backendTap true :: (mid ++ [Ev.back]))
        = countBack (mid ++ [Ev.back]) := by
      simp [countBack, List.countP_cons]
    have hc2 : countSucc (Ev.backendTap true :: (mid ++ [Ev.back]))
        = countSucc (mid ++ [Ev.back]) + 1 := by
      simp [countSucc, List.countP_cons]
    have h5 : countBack [Ev.back] = 1 := rfl
    have h6 : countSucc [Ev.back] = 0 := rfl
    have hbal := h.1
    omega
  · intro n
    match n with
    | 0 => simp [countBack, countSucc]
    | m + 1 =>
      rw [List.take_succ_cons]
      have hb1 : countBack (Ev.backendTap true :: (mid ++ [Ev.back]).take m)
          = countBack ((mid ++ [Ev.back]).take m) := by
        simp [countBack, List.countP_cons]
      have hs1 : countSucc (Ev.backendTap true :: (mid ++ [Ev.back]).take m)
          = countSucc ((mid ++ [Ev.back]).take m) + 1 := by
        simp [countSucc, List.countP_cons]
      rw [hb1, hs1, List.take_append_eq_append_take, countBack_append, countSucc_append]
      have h2 := h.2 m
      have h3 : countBack ([Ev.back].take (m - mid.length)) ≤ countBack [Ev.back] :=
        countBack_take_le _ _
      have h4 : countSucc ([Ev.back].take (m - mid.length)) ≤ countSucc [Ev.back] :=
        countSucc_take_le _ _
      have h5 : countBack [Ev.back] = 1 := rfl
      have h6 : countSucc [Ev.back] = 0 := rfl
      omega

/-- The run invariant: relating the explorer state before and after any
(sub-)computation of the traversal.  The Frontier only grows; new flow
records carry pairwise-distinct action identities that were unvisited
before and are visited after, and come from elements for which a tap
command exists; new screen states respect the depth bound and store
exactly the visited-filtered clickable elements of their snapshot; the
new trace segment is balanced and its attempted identities are
pairwise distinct, unvisited before, visited after. -/
structure StepInv {σ : Type} (maxDepth : Nat) (s t : ExpSt σ) : Prop where
  vis : ∃ nv, t.visited = s.visited ++ nv
  flows : ∃ nf, t.flows = s.flows ++ nf ∧ (nf.map FlowRecord.action).Nodup
      ∧ ∀ fr ∈ nf, fr.action ∉ s.visited ∧ fr.action ∈ t.visited
          ∧ buildTapCmd fr.element ≠ none
  screens : ∃ ns, t.screenStates = s.screenStates ++ ns
      ∧ ∀ ss ∈ ns, ss.depth ≤ maxDepth
          ∧ ss.elements = findClickableElements ss.frontierAtCapture ss.snapshot
  evs : ∃ nt, t.trace = s.trace ++ nt ∧ SegOk nt ∧ (attemptIds nt).Nodup
      ∧ ∀ a ∈ attemptIds nt, a ∉ s.visited ∧ a ∈ t.visited

theorem stepInv_refl {σ : Type} (maxDepth : Nat) (s : ExpSt σ) : StepInv maxDepth s s := by
  refine ⟨⟨[], by simp⟩, ⟨[], by simp⟩, ⟨[], by simp⟩,
    ⟨[], by simp, segOk_nil, by simp [attemptIds], by simp [attemptIds]⟩⟩

theorem stepInv_trans {σ : Type} {maxDepth : Nat} {s₁ s₂ s₃ : ExpSt σ}
    (h12 : StepInv maxDepth s₁ s₂) (h23 : StepInv maxDepth s₂ s₃) :
    StepInv maxDepth s₁ s₃ := by
  obtain ⟨nv1, hv1⟩ := h12.vis
  obtain ⟨nv2, hv2⟩ := h23.vis
  obtain ⟨nf1, hf1, hnd1, hc1⟩ := h12.flows
  obtain ⟨nf2, hf2, hnd2, hc2⟩ := h23.flows
  obtain ⟨ns1, hs1, hd1⟩ := h12.screens
  obtain ⟨ns2, hs2, hd2⟩ := h23.screens
  obtain ⟨nt1, ht1, hseg1, hat1, hai1⟩ := h12.evs
  obtain ⟨nt2, ht2, hseg2, hat2, hai2⟩ := h23.evs
  refine ⟨⟨nv1 ++ nv2, by rw [hv2, hv1, List.append_assoc]⟩, ?_, ?_, ?_⟩
  · refine ⟨nf1 ++ nf2, by rw [hf2, hf1, List.append_assoc], ?_, ?_⟩
    · rw [List.map_append]
      refine List.Nodup.append hnd1 hnd2 ?_
      intro a ha1 ha2
      obtain ⟨fr, hfr, hfa⟩ := List.mem_map.mp ha1
      obtain ⟨fr2, hfr2, hfa2⟩ := List.mem_map.mp ha2
      have h1 := (hc1 fr hfr).2.1
      have h2 := (hc2 fr2 hfr2).1
      rw [hfa] at h1
      rw [hfa2] at h2
      exact h2 h1
    · intro fr hmem
      rcases List.mem_append.mp hmem with h | h
      · obtain ⟨ha, hb, hcmd⟩ := hc1 fr h
        exact ⟨ha, by rw [hv2]; exact List.mem_append.mpr (Or.inl hb), hcmd⟩
      · obtain ⟨ha, hb, hcmd⟩ := hc2 fr h
        refine ⟨fun hmem' => ha ?_, hb, hcmd⟩
        rw [hv1]
        exact List.mem_append.mpr (Or.inl hmem')
  · refine ⟨ns1 ++ ns2, by rw [hs2, hs1, List.append_assoc], ?_⟩
    intro ss hss
    rcases List.mem_append.mp hss with h | h
    · exact hd1 ss h
    · exact hd2 ss h
  · refine ⟨nt1 ++ nt2, by rw [ht2, ht1, List.append_assoc],
      segOk_append hseg1 hseg2, ?_, ?_⟩
    · rw [attemptIds_append]
      refine List.Nodup.append hat1 hat2 ?_
      intro a ha1 ha2
      exact (hai2 a ha2).1 (hai1 a ha1).2
    · intro a ha
      rw [attemptIds_append] at ha
      rcases List.mem_append.mp ha with h | h
      · exact ⟨(hai1 a h).1, by rw [hv2]; exact List.mem_append.mpr (Or.inl (hai1 a h).2)⟩
      · refine ⟨fun hmem' => (hai2 a h).1 ?_, (hai2 a h).2⟩
        rw [hv1]
        exact List.mem_append.mpr (Or.inl hmem')

/-- A step that records only driver events (and possibly screen states),
without touching the Frontier or the flow log, satisfies the invariant. -/
theorem stepInv_silent {σ : Type} {maxDepth : Nat} {st t : ExpSt σ}
    (ns : List ScreenState) (evs : List Ev)
    (hvis : t.visited = st.visited)
    (hfl : t.flows = st.flows)
    (hsc : t.screenStates = st.screenStates ++ ns)
    (htr : t.trace = st.trace ++ evs)
    (hns : ∀ ss ∈ ns, ss.depth ≤ maxDepth
        ∧ ss.elements = findClickableElements ss.frontierAtCapture ss.snapshot)
    (hb : countBack evs = 0) (hs : countSucc evs = 0) (ha : attemptIds evs = []) :
    StepInv maxDepth st t := by
  refine ⟨⟨[], by rw [hvis]; simp⟩, ⟨[], by rw [hfl]; simp⟩, ⟨ns, hsc, hns⟩,
    ⟨evs, htr, segOk_of_counts evs hb hs, by rw [ha]; exact List.nodup_nil,
     by rw [ha]; simp⟩⟩

/-- An iteration that marks an identity visited and then fails (or never
invokes) the tap satisfies the invariant. -/
theorem stepInv_markOnly {σ : Type} {maxDepth : Nat} {st t : ExpSt σ}
    (id : String) (evs : List Ev)
    (hvis : t.visited = st.visited ++ [id])
    (hfl : t.flows = st.flows)
    (hsc : t.screenStates = st.screenStates)
    (htr : t.trace = st.trace ++ (Ev.attempt id :: evs))
    (hnewv : id ∉ st.visited)
    (hb : countBack evs = 0) (hs : countSucc evs = 0) (ha : attemptIds evs = []) :
    StepInv maxDepth st t := by
  have hstep : attemptIds (Ev.attempt id :: evs) = id :: attemptIds evs := by
    simp [attemptIds, List.filterMap_cons]
  have hids : attemptIds (Ev.attempt id :: evs) = [id] := by
    rw [hstep, ha]
  refine ⟨⟨[id], hvis⟩, ⟨[], by rw [hfl]; simp⟩, ⟨[], by rw [hsc]; simp⟩,
    ⟨Ev.attempt id :: evs, htr, ?_, ?_, ?_⟩⟩
  · refine segOk_of_counts _ ?_ ?_
    · have hc : countBack (Ev.attempt id :: evs) = countBack evs := by
        simp [countBack, List.countP_cons]
      rw [hc]
      exact hb
    · have hc : countSucc (Ev.attempt id :: evs) = countSucc evs := by
        simp [countSucc, List.countP_cons]
      rw [hc]
      exact hs
  · rw [hids]
    exact List.nodup_singleton id
  · intro a hmem
    rw [hids] at hmem
    rw [List.mem_singleton] at hmem
    subst hmem
    exact ⟨hnewv, by rw [hvis]; simp⟩

/-- A successful iteration: the identity is marked, the backend tap
succeeds, a flow record is appended, an arbitrary invariant-respecting
descent runs, and one back-navigation closes the iteration. -/
theorem stepInv_succIter {σ : Type} {maxDepth : Nat} {st st₃ st₄ : ExpSt σ} {w' : σ}
    (id afterName : String) (fr : FlowRecord)
    (hvis : st₃.visited = st.visited ++ [id])
    (hfl : st₃.flows = st.flows ++ [fr])
    (hsc : st₃.screenStates = st.screenStates)
    (htr : st₃.trace = st.trace ++ [Ev.attempt id, Ev.backendTap true, Ev.shot afterName])
    (hact : fr.action = id)
    (hcmd : buildTapCmd fr.element ≠ none)
    (hnewv : id ∉ st.visited)
    (h34 : StepInv maxDepth st₃ st₄) :
    StepInv maxDepth st { st₄ with world := w', trace := st₄.trace ++ [Ev.back] } := by
  obtain ⟨nv, hv4⟩ := h34.vis
  obtain ⟨nf, hf4, hnd4, hc4⟩ := h34.flows
  obtain ⟨ns, hs4, hd4⟩ := h34.screens
  obtain ⟨nt, ht4, hseg4, hat4, hai4⟩ := h34.evs
  have hidin : id ∈ st₃.visited := by rw [hvis]; simp
  have hidin4 : id ∈ st₄.visited := by rw [hv4]; exact List.mem_append.mpr (Or.inl hidin)
  refine ⟨⟨[id] ++ nv, by rw [hv4, hvis, List.append_assoc]⟩, ?_, ?_, ?_⟩
  · refine ⟨[fr] ++ nf, by rw [hf4, hfl, List.append_assoc], ?_, ?_⟩
    · rw [List.map_append]
      refine List.Nodup.append (by simp) hnd4 ?_
      intro a ha1 ha2
      rw [List.map_singleton, List.mem_singleton] at ha1
      obtain ⟨fr2, hfr2, hfa2⟩ := List.mem_map.mp ha2
      have := (hc4 fr2 hfr2).1
      rw [hfa2, ha1, hact] at this
      exact this hidin
    · intro fr' hmem
      rcases List.mem_append.mp hmem with h | h
      · rw [List.mem_singleton] at h
        subst h
        exact ⟨by rw [hact]; exact hnewv, by rw [hact]; exact hidin4, hcmd⟩
      · obtain ⟨ha, hb, hcmd'⟩ := hc4 fr' h
        refine ⟨fun hmem' => ha ?_, hb, hcmd'⟩
        rw [hvis]
        exact List.mem_append.mpr (Or.inl hmem')
  · refine ⟨ns, by rw [hs4, hsc], hd4⟩
  · refine ⟨[Ev.attempt id, Ev.backendTap true, Ev.shot afterName] ++ nt ++ [Ev.back],
      ?_, ?_, ?_, ?_⟩
    · show st₄.trace ++ [Ev.back] = _
      rw [ht4, htr]
      simp
    · have hshape : [Ev.attempt id, Ev.backendTap true, Ev.shot afterName] ++ nt ++ [Ev.back]
          = [Ev.attempt id] ++ (Ev.backendTap true :: (([Ev.shot afterName] ++ nt) ++ [Ev.back])) := by
        simp
      rw [hshape]
      refine segOk_append (segOk_of_counts _ rfl rfl) ?_
      exact segOk_wrap (segOk_append (segOk_of_counts _ rfl rfl) hseg4)
    · have hids : attemptIds ([Ev.attempt id, Ev.backendTap true, Ev.shot afterName] ++ nt ++ [Ev.back])
          = id :: attemptIds nt := by
        rw [attemptIds_append, attemptIds_append]
        simp [attemptIds, List.filterMap_cons]
      rw [hids, List.nodup_cons]
      refine ⟨fun hmem => ?_, hat4⟩
      exact (hai4 id hmem).1 hidin
    · intro a hmem
      rw [attemptIds_append, attemptIds_append] at hmem
      simp only [attemptIds, List.filterMap_cons, List.filterMap_nil] at hmem
      rcases List.mem_append.mp hmem with h | h
      · rcases List.mem_append.mp h with h' | h'
        · simp at h'
          subst h'
          exact ⟨hnewv, hidin4⟩
        · rcases (hai4 a h') with ⟨hna, hia⟩
          refine ⟨fun hmem' => hna ?_, hia⟩
          rw [hvis]
          exact List.mem_append.mpr (Or.inl hmem')
      · simp at h

/-- The post-tap screenshot name of a successful iteration
(`after_screenshot` of ui_explorer.py line 263). -/
def succAfterName {σ : Type} (E : Env σ) (st : ExpSt σ) (e : Element) (cmd : String) :
    String :=
  "after_tap_" ++ pyTake 30 (replaceChar ':' '_' (createIdentifier e)) ++ "_"
    ++ toString (E.now (E.sleep 2 (E.runTap cmd st.world).2))

/-- The flow record appended by a successful iteration. -/
def succFlow {σ : Type} (E : Env σ) (depth : Nat) (name : String)
    (st : ExpSt σ) (e : Element) (cmd : String) : FlowRecord :=
  { fromScreen := name, action := createIdentifier e,
    toScreen := succAfterName E st e cmd, depth := depth, element := e }

/-- Abbreviation for the explorer state reached inside a successful loop
iteration just before the recursive descent: identity marked, backend
tap succeeded, settle wait, follow-up screenshot, flow record appended
(the `st₃` point of `exploreLoop`). -/
def loopSuccState {σ : Type} (E : Env σ) (depth : Nat) (name : String)
    (st : ExpSt σ) (e : Element) (cmd : String) : ExpSt σ :=
  { st with visited := st.visited ++ [createIdentifier e],
            world := E.takeShot (succAfterName E st e cmd)
              (E.sleep 2 (E.runTap cmd st.world).2),
            trace := st.trace ++ [Ev.attempt (createIdentifier e), Ev.backendTap true,
              Ev.shot (succAfterName E st e cmd)],
            flows := st.flows ++ [succFlow E depth name st e cmd] }

/-- The per-screen element loop preserves the run invariant, given that
the recursive descent does. -/
theorem exploreLoop_inv {σ : Type} (E : Env σ) (maxDepth depth : Nat) (name : String)
    (rec : ExpSt σ → ExpSt σ) (hrec : ∀ st, StepInv maxDepth st (rec st)) :
    ∀ (elems : List Element) (st : ExpSt σ),
      StepInv maxDepth st (exploreLoop E maxDepth depth name rec elems st) := by
  intro elems
  induction elems with
  | nil =>
    intro st
    simpa [exploreLoop] using stepInv_refl maxDepth st
  | cons e rest ih =>
    intro st
    by_cases hv : createIdentifier e ∈ st.visited
    · rw [show exploreLoop E maxDepth depth name rec (e :: rest) st
          = exploreLoop E maxDepth depth name rec rest st from by
        simp [exploreLoop, hv]]
      exact ih st
    · have hnewv : createIdentifier e ∉ st.visited := hv
      rcases hcmd : buildTapCmd e with _ | cmd
      · rw [show exploreLoop E maxDepth depth name rec (e :: rest) st
            = exploreLoop E maxDepth depth name rec rest
                { st with visited := st.visited ++ [createIdentifier e],
                          trace := st.trace ++ [Ev.attempt (createIdentifier e)] } from by
          simp [exploreLoop, hv, tapElement, hcmd]]
        refine stepInv_trans ?_ (ih _)
        exact stepInv_markOnly (createIdentifier e) [] rfl rfl rfl rfl hnewv rfl rfl rfl
      · by_cases hok : (E.runTap cmd st.world).1 = true
        · by_cases hlt : depth < maxDepth
          · rw [show exploreLoop E maxDepth depth name rec (e :: rest) st
                = exploreLoop E maxDepth depth name rec rest
                    { rec (loopSuccState E depth name st e cmd) with
                        world := E.sleep 1
                          (E.goBack (rec (loopSuccState E depth name st e cmd)).world),
                        trace := (rec (loopSuccState E depth name st e cmd)).trace
                          ++ [Ev.back] } from by
              simp [exploreLoop, hv, tapElement, hcmd, hok, hlt, loopSuccState,
                succAfterName, succFlow]]
            refine stepInv_trans ?_ (ih _)
            exact stepInv_succIter (createIdentifier e) (succAfterName E st e cmd)
              (succFlow E depth name st e cmd)
              (by simp [loopSuccState]) (by simp [loopSuccState])
              (by simp [loopSuccState]) (by simp [loopSuccState]) rfl
              (by simp [succFlow, hcmd]) hnewv (hrec _)
          · rw [show exploreLoop E maxDepth depth name rec (e :: rest) st
                = exploreLoop E maxDepth depth name rec rest
                    { loopSuccState E depth name st e cmd with
                        world := E.sleep 1
                          (E.goBack (loopSuccState E depth name st e cmd).world),
                        trace := (loopSuccState E depth name st e cmd).trace
                          ++ [Ev.back] } from by
              simp [exploreLoop, hv, tapElement, hcmd, hok, hlt, loopSuccState,
                succAfterName, succFlow]]
            refine stepInv_trans ?_ (ih _)
            exact stepInv_succIter (createIdentifier e) (succAfterName E st e cmd)
              (succFlow E depth name st e cmd)
              (by simp [loopSuccState]) (by simp [loopSuccState])
              (by simp [loopSuccState]) (by simp [loopSuccState]) rfl
              (by simp [succFlow, hcmd]) hnewv (stepInv_refl _ _)
        · rw [show exploreLoop E maxDepth depth name rec (e :: rest) st
              = exploreLoop E maxDepth depth name rec rest
                  { st with visited := st.visited ++ [createIdentifier e],
                            world := (E.runTap cmd st.world).2,
                            trace := st.trace ++ [Ev.attempt (createIdentifier e),
                              Ev.backendTap (E.runTap cmd st.world).1] } from by
            simp [exploreLoop, hv, tapElement, hcmd, hok]]
          refine stepInv_trans ?_ (ih _)
          refine stepInv_markOnly (createIdentifier e)
            [Ev.backendTap (E.runTap cmd st.world).1]
            rfl rfl rfl rfl hnewv rfl ?_ rfl
          have hfalse : (E.runTap cmd st.world).1 = false := by
            revert hok
            cases (E.runTap cmd st.world).1 <;> simp
          rw [hfalse]
          rfl

/-- The screenshot name built at a screen visit
(`screenshot_name` of ui_explorer.py line 228). -/
def screenName {σ : Type} (E : Env σ) (depth : Nat) (w : σ) : String :=
  "screen_depth" ++ toString depth ++ "_" ++ toString (E.now w)

/-- Abbreviation for the explorer state right after a successful capture:
hierarchy obtained, screenshot taken, screen state recorded (the `st₂`
point of `exploreScreen`). -/
def screenRecState {σ : Type} (E : Env σ) (depth : Nat) (st : ExpSt σ)
    (hierarchy : Node) : ExpSt σ :=
  { st with
      world := E.takeShot (screenName E depth (E.getHierarchy st.world).2)
        (E.getHierarchy st.world).2,
      trace := st.trace ++ [Ev.hier true,
        Ev.shot (screenName E depth (E.getHierarchy st.world).2)],
      screenStates := st.screenStates ++
        [{ depth := depth,
           timestamp := E.now (E.takeShot
             (screenName E depth (E.getHierarchy st.world).2)
             (E.getHierarchy st.world).2),
           screenshot := screenName E depth (E.getHierarchy st.world).2,
           elements := findClickableElements st.visited hierarchy,
           snapshot := hierarchy, frontierAtCapture := st.visited }] }

/-- The recursive exploration preserves the run invariant from any
starting state, fuel and depth. -/
theorem exploreScreen_inv {σ : Type} (E : Env σ) (maxDepth : Nat) :
    ∀ (fuel depth : Nat) (st : ExpSt σ),
      StepInv maxDepth st (exploreScreen E maxDepth fuel depth st) := by
  intro fuel
  induction fuel with
  | zero =>
    intro depth st
    rw [show exploreScreen E maxDepth 0 depth st = st from by simp [exploreScreen]]
    exact stepInv_refl maxDepth st
  | succ f ihf =>
    intro depth st
    by_cases hd : depth > maxDepth
    · rw [show exploreScreen E maxDepth (f + 1) depth st = st from by
        simp [exploreScreen, hd]]
      exact stepInv_refl maxDepth st
    · rcases hh : (E.getHierarchy st.world).1 with _ | hierarchy
      · rw [show exploreScreen E maxDepth (f + 1) depth st
            = { st with world := (E.getHierarchy st.world).2,
                        trace := st.trace ++ [Ev.hier false] } from by
          simp [exploreScreen, hd, hh]]
        exact stepInv_silent [] [Ev.hier false] rfl rfl (by simp) rfl (by simp) rfl rfl rfl
      · rw [show exploreScreen E maxDepth (f + 1) depth st
            = exploreLoop E maxDepth depth
                (screenName E depth (E.getHierarchy st.world).2)
                (exploreScreen E maxDepth f (depth + 1))
                (findClickableElements st.visited hierarchy)
                (screenRecState E depth st hierarchy) from by
          simp [exploreScreen, hd, hh, screenRecState, screenName, findClickableElements]]
        refine stepInv_trans ?_
          (exploreLoop_inv E maxDepth depth
            (screenName E depth (E.getHierarchy st.world).2)
            (exploreScreen E maxDepth f (depth + 1))
            (fun st' => ihf (depth + 1) st')
            (findClickableElements st.visited hierarchy)
            (screenRecState E depth st hierarchy))
        refine stepInv_silent
          [{ depth := depth,
             timestamp := E.now (E.takeShot
               (screenName E depth (E.getHierarchy st.world).2)
               (E.getHierarchy st.world).2),
             screenshot := screenName E depth (E.getHierarchy st.world).2,
             elements := findClickableElements st.visited hierarchy,
             snapshot := hierarchy, frontierAtCapture := st.visited }]
          [Ev.hier true, Ev.shot (screenName E depth (E.getHierarchy st.world).2)]
          rfl rfl (by simp [screenRecState]) (by simp [screenRecState]) ?_ rfl rfl rfl
        intro ss hss
        rw [List.mem_singleton] at hss
        subst hss
        refine ⟨?_, rfl⟩
        show depth ≤ maxDepth
        omega

/-- The top-level run satisfies the run invariant from the fresh state. -/
theorem runExploration_inv {σ : Type} (E : Env σ) (w : σ) (maxDepth : Nat) :
    StepInv maxDepth (initSt w) (runExploration E w maxDepth) :=
  exploreScreen_inv E maxDepth (maxDepth + 1) 0 (initSt w)

/-- Driver whose start screen has no clickable elements; `Nat` world is a
step counter serving as the clock. -/
def emptyEnv : Env Nat :=
  { getHierarchy := fun s => (some (Node.dict [] []), s + 1)
    takeShot := fun _ s => s + 1
    runTap := fun _ s => (false, s + 1)
    goBack := fun s => s + 1
    sleep := fun _ s => s
    now := fun s => s }

/-- The single screen state recorded by a depth-0 run on `emptyEnv`. -/
def emptyScreenState : ScreenState :=
  { depth := 0, timestamp := 2, screenshot := "screen_depth0_1", elements := [],
    snapshot := Node.dict [] [], frontierAtCapture := [] }

/-- A screen with three clickable elements A, B, C. -/
def scenNode : Node :=
  Node.dict [] [ Node.dict [("clickable", "true"), ("text", "A")] []
               , Node.dict [("clickable", "true"), ("text", "B")] []
               , Node.dict [("clickable", "true"), ("text", "C")] [] ]

/-- Driver for the three-element screen on which only the tap of `B`
fails. -/
def scenEnv : Env Nat :=
  { getHierarchy := fun s => (some scenNode, s + 1)
    takeShot := fun _ s => s + 1
    runTap := fun cmd s => (cmd != "- tapOn: \"B\"", s + 1)
    goBack := fun s => s + 1
    sleep := fun _ s => s
    now := fun s => s }

/-- A flow record with a textual label. -/
def textFlowA : FlowRecord :=
  { fromScreen := "s", action := "text:A", toScreen := "t", depth := 0,
    element := ⟨"A", "", "", "", "", ""⟩ }

/-- The flow record produced by the successful tap of `A` in the
`scenEnv` run. -/
def scenFlowA : FlowRecord :=
  { fromScreen := "screen_depth0_1", action := "text:A", toScreen := "after_tap_text_A_3",
    depth := 0,
    element := { text := "A", accessibilityText := "", resourceId := "", bounds := "",
                 nodeClass := "", path := "/child[0]" } }

/-- The flow record produced by the successful tap of `C` in the
`scenEnv` run. -/
def scenFlowC : FlowRecord :=
  { fromScreen := "screen_depth0_1", action := "text:C", toScreen := "after_tap_text_C_7",
    depth := 0,
    element := { text := "C", accessibilityText := "", resourceId := "", bounds := "",
                 nodeClass := "", path := "/child[2]" } }

/-- A screen with one clickable element `A` that reappears identically on
every capture; taps always succeed. -/
def repeatNode : Node :=
  Node.dict [] [Node.dict [("clickable", "true"), ("text", "A")] []]

/-- Driver for `repeatNode`. -/
def repeatEnv : Env Nat :=
  { getHierarchy := fun s => (some repeatNode, s + 1)
    takeShot := fun _ s => s + 1
    runTap := fun _ s => (true, s + 1)
    goBack := fun s => s + 1
    sleep := fun _ s => s
    now := fun s => s }

/-- Driver whose snapshot capture always fails. -/
def failEnv : Env Nat :=
  { getHierarchy := fun s => (none, s + 1)
    takeShot := fun _ s => s + 1
    runTap := fun _ s => (false, s + 1)
    goBack := fun s => s + 1
    sleep := fun _ s => s
    now := fun s => s }

/-- The all-empty element. -/
def emptyElement : Element := ⟨"", "", "", "", "", ""⟩

/-- C1: in every exploration run, no ElementIdentity appears in the
`action` field of more than one FlowRecord, and no identity is attempted
(activated) more than once, regardless of how often it reappears across
screens or within one screen visit. -/
theorem C1_global_once_only :
    ∀ (σ : Type) (E : Env σ) (w : σ) (maxDepth : Nat),
      (((runExploration E w maxDepth).flows.map FlowRecord.action).Nodup)
      ∧ ((attemptIds (runExploration E w maxDepth).trace).Nodup) := by
  intro σ E w maxDepth
  have h := runExploration_inv E w maxDepth
  obtain ⟨nf, hf, hnd, _⟩ := h.flows
  obtain ⟨nt, ht, _, hat, _⟩ := h.evs
  constructor
  · rw [show (runExploration E w maxDepth).flows = nf from by simpa [initSt] using hf]
    exact hnd
  · rw [show (runExploration E w maxDepth).trace = nt from by simpa [initSt] using ht]
    exact hat

/-- C2 counterexample: the identifier returned for `" Login "` is the
stripped `"text:Login"`, not `"text: Login "` as the claim's wording
demands; and two elements with the identical non-empty display text
`" "` (whitespace only) receive different identities when their
accessibility labels differ. -/
theorem C2_identifier_cex :
    createIdentifier ⟨" Login ", "", "", "", "", ""⟩
      ≠ identifySpecClaim ⟨" Login ", "", "", "", "", ""⟩
    ∧ (⟨" ", "A", "", "", "", ""⟩ : Element).text = (⟨" ", "B", "", "", "", ""⟩ : Element).text
    ∧ (⟨" ", "A", "", "", "", ""⟩ : Element).text ≠ ""
    ∧ createIdentifier ⟨" ", "A", "", "", "", ""⟩
      ≠ createIdentifier ⟨" ", "B", "", "", "", ""⟩ := by
  refine ⟨by decide, rfl, by decide, by decide⟩

/-- C2 (amended): `_create_identifier` is a pure total function equal to
the priority cascade that appends the *stripped* label (and the raw
bounds in the fallback); two elements whose display texts strip to the
same non-empty string get the same identity regardless of every other
field; the all-empty element yields `"bounds:"`. -/
theorem C2_identifier :
    (∀ e : Element, createIdentifier e = identifyAmended e)
    ∧ (∀ e₁ e₂ : Element, pyStrip e₁.text = pyStrip e₂.text → pyStrip e₁.text ≠ "" →
        createIdentifier e₁ = createIdentifier e₂)
    ∧ (∀ e : Element, e.text = "" → e.accessibilityText = "" → e.resourceId = "" →
        e.bounds = "" → createIdentifier e = "bounds:") := by
  refine ⟨fun e => rfl, ?_, ?_⟩
  · intro e₁ e₂ h hne
    rw [h] at hne
    simp only [createIdentifier]
    rw [h]
    simp [hne]
  · intro e h1 h2 h3 h4
    obtain ⟨t, a, r, b, nc, p⟩ := e
    dsimp only at h1 h2 h3 h4
    subst h1 h2 h3 h4
    rfl

/-- C2 witness: the amended theorem applied to two concrete elements
whose display texts strip to the same non-empty string. -/
theorem C2_identifier_witness :
    pyStrip (⟨" x ", "A", "", "", "", ""⟩ : Element).text
      = pyStrip (⟨"x", "B", "", "", "", ""⟩ : Element).text
    ∧ pyStrip (⟨" x ", "A", "", "", "", ""⟩ : Element).text ≠ ""
    ∧ createIdentifier ⟨" x ", "A", "", "", "", ""⟩
      = createIdentifier ⟨"x", "B", "", "", "", ""⟩ := by
  refine ⟨by decide, by decide, ?_⟩
  exact C2_identifier.2.1 ⟨" x ", "A", "", "", "", ""⟩ ⟨"x", "B", "", "", "", ""⟩
    (by decide) (by decide)

/-- C3: no recorded ScreenState exceeds the maximum depth, and a call of
`explore_screen` with `depth > max_depth` returns immediately with the
state untouched. -/
theorem C3_depth_bound :
    ∀ (σ : Type) (E : Env σ) (w : σ) (k : Nat),
      (∀ ss ∈ (runExploration E w k).screenStates, ss.depth ≤ k)
      ∧ (∀ (fuel depth : Nat) (st : ExpSt σ), depth > k →
          exploreScreen E k fuel depth st = st) := by
  intro σ E w k
  constructor
  · intro ss hss
    have h := runExploration_inv E w k
    obtain ⟨ns, hs, hd⟩ := h.screens
    rw [show (runExploration E w k).screenStates = ns from by simpa [initSt] using hs] at hss
    exact (hd ss hss).1
  · intro fuel depth st hdep
    cases fuel <;> simp [exploreScreen, hdep]

/-- C3 witness: the depth bound applied to the screen state of a
concrete depth-0 run. -/
theorem C3_depth_bound_witness :
    emptyScreenState ∈ (runExploration emptyEnv 0 0).screenStates
    ∧ emptyScreenState.depth ≤ 0 := by
  have hmem : emptyScreenState ∈ (runExploration emptyEnv 0 0).screenStates := by
    rw [show (runExploration emptyEnv 0 0).screenStates = [emptyScreenState] from rfl]
    exact List.mem_singleton.mpr rfl
  exact ⟨hmem, (C3_depth_bound Nat emptyEnv 0 0).1 emptyScreenState hmem⟩

/-- C4: every recorded flow's identity ends up in the Frontier and stems
from an element for which a tap command exists (flows are appended only
on success); in the three-element scenario where only the second tap
fails, the Frontier ends with all three identities, the flow log holds
exactly the two records for elements 1 and 3, and the report's
interaction count is 2. -/
theorem C4_frontier_and_failure :
    (∀ (σ : Type) (E : Env σ) (w : σ) (maxDepth : Nat),
        ∀ fr ∈ (runExploration E w maxDepth).flows,
          fr.action ∈ (runExploration E w maxDepth).visited
          ∧ buildTapCmd fr.element ≠ none)
    ∧ (runExploration scenEnv 0 0).visited = ["text:A", "text:B", "text:C"]
    ∧ (runExploration scenEnv 0 0).flows.map FlowRecord.action = ["text:A", "text:C"]
    ∧ (runExploration scenEnv 0 0).flows.length = 2
    ∧ (genReport "T" (runExploration scenEnv 0 0).screenStates
        (runExploration scenEnv 0 0).flows (runExploration scenEnv 0 0).visited
        "dir").totalInteractions = 2 := by
  refine ⟨?_, rfl, rfl, rfl, rfl⟩
  intro σ E w maxDepth fr hfr
  have h := runExploration_inv E w maxDepth
  obtain ⟨nf, hf, _, hc⟩ := h.flows
  rw [show (runExploration E w maxDepth).flows = nf from by simpa [initSt] using hf] at hfr
  exact ⟨(hc fr hfr).2.1, (hc fr hfr).2.2⟩

/-- C4 witness: the general part applied to the concrete first flow
record of the scenario run. -/
theorem C4_frontier_and_failure_witness :
    scenFlowA ∈ (runExploration scenEnv 0 0).flows
    ∧ scenFlowA.action ∈ (runExploration scenEnv 0 0).visited := by
  have hmem : scenFlowA ∈ (runExploration scenEnv 0 0).flows := by
    rw [show (runExploration scenEnv 0 0).flows = [scenFlowA, scenFlowC] from rfl]
    exact List.mem_cons_self scenFlowA [scenFlowC]
  exact ⟨hmem, (C4_frontier_and_failure.1 Nat scenEnv 0 0 scenFlowA hmem).1⟩

/-- C5: in every run, back-navigation attempts are in one-to-one
correspondence with successful activations, and in every prefix of the
driver-call trace the back-navigations never outnumber the successful
activations (each back comes after its success, one per success). -/
theorem C5_back_pairing :
    ∀ (σ : Type) (E : Env σ) (w : σ) (maxDepth : Nat),
      countBack (runExploration E w maxDepth).trace
        = countSucc (runExploration E w maxDepth).trace
      ∧ ∀ n, countBack ((runExploration E w maxDepth).trace.take n)
          ≤ countSucc ((runExploration E w maxDepth).trace.take n) := by
  intro σ E w maxDepth
  have h := runExploration_inv E w maxDepth
  obtain ⟨nt, ht, hseg, _, _⟩ := h.evs
  rw [show (runExploration E w maxDepth).trace = nt from by simpa [initSt] using ht]
  exact hseg

/-- C6 counterexample: two generation calls over the same (empty) flow
log but different clock readings produce different script bytes and
different reports — the generation timestamp is embedded in both. -/
theorem C6_generation_cex :
    genTestContent "com.whisker.android" "2025-01-01 10:00:00" [] []
      ≠ genTestContent "com.whisker.android" "2025-01-01 10:00:01" [] []
    ∧ genReport "2025-01-01T10:00:00" [] [] [] "d"
      ≠ genReport "2025-01-01T10:00:01" [] [] [] "d" := by
  refine ⟨by decide, by decide⟩

/-- C6 (amended): generation is deterministic in the logs and the clock
reading — two calls with the same clock reading give byte-identical
script and report, and two calls with different clock readings differ
only in the embedded timestamp (identical remainder after the
timestamped prefix; reports equal after overwriting the timestamp). -/
theorem C6_generation :
    ∀ (appId t₁ t₂ : String) (states : List ScreenState) (flows : List FlowRecord)
      (visited : List String) (dir : String),
      (t₁ = t₂ →
        genTestContent appId t₁ states flows = genTestContent appId t₂ states flows
        ∧ genReport t₁ states flows visited dir = genReport t₂ states flows visited dir)
      ∧ (∃ rest, genTestContent appId t₁ states flows = scriptPre appId ++ t₁ ++ rest
          ∧ genTestContent appId t₂ states flows = scriptPre appId ++ t₂ ++ rest)
      ∧ { genReport t₁ states flows visited dir with timestamp := t₂ }
          = genReport t₂ states flows visited dir := by
  intro appId t₁ t₂ states flows visited dir
  refine ⟨fun h => by rw [h]; exact ⟨rfl, rfl⟩, ⟨scriptRest states flows, rfl, rfl⟩, rfl⟩

/-- C6 witness: equal clock readings give equal outputs, at a concrete
input. -/
theorem C6_generation_witness :
    genTestContent "app" "T" [] [] = genTestContent "app" "T" [] []
    ∧ genReport "T" [] [] [] "d" = genReport "T" [] [] [] "d" :=
  (C6_generation "app" "T" "T" [] [] [] "d").1 rfl

/-- A flow record whose element carries only a bounds descriptor (such
records arise from successful position taps). -/
def boundsOnlyFlow : FlowRecord :=
  { fromScreen := "s", action := "bounds:[0,0][10,10]", toScreen := "shot2",
    depth := 0, element := ⟨"", "", "", "[0,0][10,10]", "", ""⟩ }

/-- C7 counterexample: a flow record whose element carries only a bounds
descriptor receives no activation step in the generated script — the
script generator has no position-tap fallback, contradicting the claimed
four-way locator priority. -/
theorem C7_script_cex :
    flowEntryText boundsOnlyFlow ≠ claimedEntryText boundsOnlyFlow := by
  decide

/-- C7 (amended): each flow record's script entry is the comment, an
activation step, and the settle / screenshot / back-and-settle steps,
where the activation step follows the same priority as live activation
on the first three locators (text, accessibility label, resource id) —
emitting exactly the live tap command — but an element with none of the
three receives no activation step at all (no position-tap fallback),
while still receiving the remaining steps. -/
theorem C7_script_steps :
    ∀ fr : FlowRecord,
      flowEntryText fr = "# Test: " ++ fr.action ++ "\n" ++ scriptActivationText fr.element
          ++ flowTailText fr.toScreen
      ∧ ((fr.element.text ≠ "" ∨ fr.element.accessibilityText ≠ ""
            ∨ fr.element.resourceId ≠ "") →
          ∃ cmd, buildTapCmd fr.element = some cmd
            ∧ scriptActivationText fr.element = cmd ++ "\n")
      ∧ (fr.element.text = "" → fr.element.accessibilityText = "" →
          fr.element.resourceId = "" → scriptActivationText fr.element = "") := by
  intro fr
  refine ⟨rfl, ?_, ?_⟩
  · intro h
    by_cases h1 : fr.element.text = ""
    · by_cases h2 : fr.element.accessibilityText = ""
      · have h3 : fr.element.resourceId ≠ "" := by tauto
        exact ⟨"- tapOn:\n    id: " ++ fr.element.resourceId,
          by simp [buildTapCmd, h1, h2, h3], by simp [scriptActivationText, h1, h2, h3]⟩
      · exact ⟨"- tapOn: \"" ++ fr.element.accessibilityText ++ "\"",
          by simp [buildTapCmd, h1, h2], by simp [scriptActivationText, h1, h2]⟩
    · exact ⟨"- tapOn: \"" ++ fr.element.text ++ "\"",
        by simp [buildTapCmd, h1], by simp [scriptActivationText, h1]⟩
  · intro h1 h2 h3
    simp [scriptActivationText, h1, h2, h3]

/-- C7 witness: the amended theorem applied to a concrete record with a
textual label, whose script activation step is exactly the live tap
command. -/
theorem C7_script_steps_witness :
    ∃ cmd, buildTapCmd textFlowA.element = some cmd
      ∧ scriptActivationText textFlowA.element = cmd ++ "\n" :=
  (C7_script_steps textFlowA).2.1 (Or.inl (by decide))

/-- C8 counterexample: in a run over a screen whose clickable element
`A` reappears on the depth-1 capture, the depth-1 ScreenState stores an
empty elements list although the snapshot contains a clickable node —
already-visited identities are filtered out at parse time, so a recorded
ScreenState does not contain all interactable elements of its
snapshot. -/
theorem C8_screenstate_cex :
    ¬ (∀ (σ : Type) (E : Env σ) (w : σ) (maxDepth : Nat),
        ∀ ss ∈ (runExploration E w maxDepth).screenStates,
          ss.elements = specClickableNode "" ss.snapshot) := by
  intro h
  have h3 : ((runExploration repeatEnv 0 1).screenStates.map (fun ss => ss.elements))
      = ((runExploration repeatEnv 0 1).screenStates.map
          (fun ss => specClickableNode "" ss.snapshot)) :=
    List.map_congr_left (fun ss hss => h Nat repeatEnv 0 1 ss hss)
  exact absurd h3 (by decide)

/-- C8 (amended): every recorded ScreenState's elements sequence is the
pre-order (first-encounter) sequence of the snapshot's clickable nodes
*minus* those whose identity was already in the Frontier at capture
time. -/
theorem C8_screenstate_elements :
    ∀ (σ : Type) (E : Env σ) (w : σ) (maxDepth : Nat),
      ∀ ss ∈ (runExploration E w maxDepth).screenStates,
        ss.elements = (specClickableNode "" ss.snapshot).filter
          (fun e => !(ss.frontierAtCapture.contains (createIdentifier e))) := by
  intro σ E w maxDepth ss hss
  have h := runExploration_inv E w maxDepth
  obtain ⟨ns, hs, hd⟩ := h.screens
  rw [show (runExploration E w maxDepth).screenStates = ns from by
    simpa [initSt] using hs] at hss
  rw [(hd ss hss).2, findClickableElements, travNode_eq_filter]

/-- C8 witness: the amended theorem applied to the screen state of a
concrete run. -/
theorem C8_screenstate_elements_witness :
    emptyScreenState ∈ (runExploration emptyEnv 0 0).screenStates
    ∧ emptyScreenState.elements
      = (specClickableNode "" emptyScreenState.snapshot).filter
          (fun e => !(emptyScreenState.frontierAtCapture.contains (createIdentifier e))) := by
  have hmem : emptyScreenState ∈ (runExploration emptyEnv 0 0).screenStates := by
    rw [show (runExploration emptyEnv 0 0).screenStates = [emptyScreenState] from rfl]
    exact List.mem_singleton.mpr rfl
  exact ⟨hmem, C8_screenstate_elements Nat emptyEnv 0 0 emptyScreenState hmem⟩

/-- C9: when snapshot capture fails, the explorer records nothing at
that level and returns with its logs untouched; when it fails at the
root, the run ends with zero ScreenStates, zero FlowRecords, an empty
Frontier, and the generated script holds only the bootstrap header. -/
theorem C9_capture_failure :
    (∀ (σ : Type) (E : Env σ) (maxDepth fuel depth : Nat) (st : ExpSt σ),
        (E.getHierarchy st.world).1 = none →
          (exploreScreen E maxDepth fuel depth st).screenStates = st.screenStates
          ∧ (exploreScreen E maxDepth fuel depth st).flows = st.flows
          ∧ (exploreScreen E maxDepth fuel depth st).visited = st.visited)
    ∧ (∀ (σ : Type) (E : Env σ) (w : σ) (maxDepth : Nat) (appId t : String),
        (E.getHierarchy w).1 = none →
          (runExploration E w maxDepth).screenStates = []
          ∧ (runExploration E w maxDepth).flows = []
          ∧ (runExploration E w maxDepth).visited = []
          ∧ genTestContent appId t (runExploration E w maxDepth).screenStates
              (runExploration E w maxDepth).flows
            = scriptPre appId ++ t ++ scriptCounts [] []) := by
  have hrest : scriptRest [] [] = scriptCounts [] [] := by
    rw [scriptRest]
    rw [show ((groupFlows ([] : List FlowRecord)).map sectionText) = [] from rfl]
    rw [show String.join [] = "" from rfl]
    exact String.append_empty _
  constructor
  · intro σ E maxDepth fuel depth st hnone
    match fuel with
    | 0 => simp [exploreScreen]
    | f + 1 =>
      by_cases hd : depth > maxDepth
      · simp [exploreScreen, hd]
      · simp [exploreScreen, hd, hnone]
  · intro σ E w maxDepth appId t hnone
    have hrun : runExploration E w maxDepth
        = exploreScreen E maxDepth (maxDepth + 1) 0 (initSt w) := rfl
    have hpart : (E.getHierarchy (initSt w).world).1 = none := hnone
    obtain ⟨h1, h2, h3⟩ :=
      (show ∀ (σ : Type) (E : Env σ) (maxDepth fuel depth : Nat) (st : ExpSt σ),
          (E.getHierarchy st.world).1 = none →
            (exploreScreen E maxDepth fuel depth st).screenStates = st.screenStates
            ∧ (exploreScreen E maxDepth fuel depth st).flows = st.flows
            ∧ (exploreScreen E maxDepth fuel depth st).visited = st.visited from by
        intro σ E maxDepth fuel depth st hnone
        match fuel with
        | 0 => simp [exploreScreen]
        | f + 1 =>
          by_cases hd : depth > maxDepth
          · simp [exploreScreen, hd]
          · simp [exploreScreen, hd, hnone])
        σ E maxDepth (maxDepth + 1) 0 (initSt w) hpart
    refine ⟨by rw [hrun, h1]; rfl, by rw [hrun, h2]; rfl, by rw [hrun, h3]; rfl, ?_⟩
    rw [hrun, h1, h2]
    rw [show (initSt w : ExpSt σ).screenStates = [] from rfl,
        show (initSt w : ExpSt σ).flows = [] from rfl]
    rw [genTestContent, hrest]

/-- C9 witness: a concrete driver failing at the root. -/
theorem C9_capture_failure_witness :
    (runExploration failEnv 0 3).screenStates = []
    ∧ (runExploration failEnv 0 3).flows = []
    ∧ (runExploration failEnv 0 3).visited = []
    ∧ genTestContent "app" "T" (runExploration failEnv 0 3).screenStates
        (runExploration failEnv 0 3).flows
      = scriptPre "app" ++ "T" ++ scriptCounts [] [] := by
  have h := C9_capture_failure.2 Nat failEnv 0 3 "app" "T" rfl
  exact ⟨h.1, h.2.1, h.2.2.1, h.2.2.2⟩

/-- C10: an element whose text, accessibility label, resource id and
bounds are all empty yields no tap command — `tap_element` reports
failure without invoking the backend — and its degenerate identity is
`"bounds:"`; run-wide, every flow record's element has a tap command
(so such an element never produces a FlowRecord), every identity is
attempted at most once (so one attempted all-empty element suppresses
all later ones anywhere in the run), and every attempted identity is in
the final Frontier. -/
theorem C10_empty_element :
    (∀ e : Element, e.text = "" → e.accessibilityText = "" → e.resourceId = "" →
        e.bounds = "" →
          buildTapCmd e = none
          ∧ createIdentifier e = "bounds:"
          ∧ ∀ (σ : Type) (E : Env σ) (w : σ), tapElement E e w = (false, w, []))
    ∧ (∀ (σ : Type) (E : Env σ) (w : σ) (maxDepth : Nat),
        (∀ fr ∈ (runExploration E w maxDepth).flows, buildTapCmd fr.element ≠ none)
        ∧ (attemptIds (runExploration E w maxDepth).trace).Nodup
        ∧ (∀ a ∈ attemptIds (runExploration E w maxDepth).trace,
            a ∈ (runExploration E w maxDepth).visited)) := by
  constructor
  · intro e h1 h2 h3 h4
    have hcmd : buildTapCmd e = none := by simp [buildTapCmd, h1, h2, h3, h4]
    refine ⟨hcmd, ?_, ?_⟩
    · obtain ⟨t, a, r, b, nc, p⟩ := e
      dsimp only at h1 h2 h3 h4
      subst h1 h2 h3 h4
      rfl
    · intro σ E w
      simp [tapElement, hcmd]
  · intro σ E w maxDepth
    have h := runExploration_inv E w maxDepth
    obtain ⟨nf, hf, _, hc⟩ := h.flows
    obtain ⟨nt, ht, _, hat, hai⟩ := h.evs
    have hfl : (runExploration E w maxDepth).flows = nf := by simpa [initSt] using hf
    have htr : (runExploration E w maxDepth).trace = nt := by simpa [initSt] using ht
    refine ⟨?_, ?_, ?_⟩
    · intro fr hfr
      rw [hfl] at hfr
      exact (hc fr hfr).2.2
    · rw [htr]
      exact hat
    · intro a ha
      rw [htr] at ha
      exact (hai a ha).2

/-- C10 witness: the theorem applied to the concrete all-empty
element. -/
theorem C10_empty_element_witness :
    buildTapCmd emptyElement = none
    ∧ createIdentifier emptyElement = "bounds:"
    ∧ tapElement emptyEnv emptyElement 0 = (false, 0, []) := by
  have h := C10_empty_element.1 emptyElement rfl rfl rfl rfl
  exact ⟨h.1, h.2.1, h.2.2 Nat emptyEnv 0⟩

end UIExplorer
